import Mathlib

/-!
Verification development for the single-file Streamlit chat application
src/mistral_chatbot.py. The embedding models the two components the design
document describes: the transcript store (the session list named messages)
and the completion client (the function get_mistral_response), together
with the chat-input handler that drives them (source lines 184 to 246).

Conventions of the embedding:
- A chat turn is a role string together with a JSON content value, because
  the Python dictionaries place arbitrary JSON there.
- The HTTP layer is an oracle mapping the request the code builds to the
  observable behaviour of the requests library for that single POST call:
  either the post call raises a RequestException, or a response arrives
  with a status code, the rendered text of the HTTPError that the
  raise_for_status method would raise for it, and a decoded body.
- Machine effects are made explicit: get_mistral_response returns the
  contents of the (mutable, in Python) messages list after the call, the
  list of POST requests it issued, and a Python-level outcome that is
  either a returned value or an uncaught exception escaping the function.
-/

namespace MistralChatbot

/-- A JSON value, as decoded by response.json() in the source. -/
inductive Json where
  | null : Json
  | bool (b : Bool) : Json
  | num (n : Int) : Json
  | str (s : String) : Json
  | arr (xs : List Json) : Json
  | obj (fields : List (String × Json)) : Json

/-- One chat turn: a dictionary with a role and a content entry, as built at
source lines 207 to 210 and 243 to 246. The content is a JSON value because
the code stores whatever the completion path extracted. -/
structure Turn where
  role : String
  content : Json

/-- The transcript store operation append: the source calls the Python list
method append on st.session_state.messages (lines 207 and 243), which adds
one element at the end. -/
def append (s : List Turn) (t : Turn) : List Turn := s ++ [t]

/-- The transcript store operation all: reading st.session_state.messages
yields the stored list itself (line 107 and line 232). -/
def all (s : List Turn) : List Turn := s

/-- A Python exception that the except clause at source line 174 does NOT
catch: it only catches requests.exceptions.RequestException, so a KeyError,
IndexError or TypeError raised by the subscript chain at line 168 escapes
the function. -/
inductive PyExn where
  | keyError (key : String) : PyExn
  | keyErrorIdx (key : Nat) : PyExn
  | indexError : PyExn
  | typeError : PyExn
deriving DecidableEq

/-- Outcome of running the body of get_mistral_response: the function either
returns a value, or an uncaught Python exception escapes it. -/
inductive PyOutcome where
  | returns (v : Json) : PyOutcome
  | raises (e : PyExn) : PyOutcome

/-- The JSON request body built at source lines 145 to 150. -/
structure Payload where
  model : String
  messages : List Turn
  temperature : ℚ
  max_tokens : Nat

/-- One outbound HTTP POST request: the URL (line 134), the header list
(lines 138 to 141) and the JSON payload (lines 145 to 150). -/
structure Request where
  url : String
  headers : List (String × String)
  body : Payload

/-- Result of calling response.json() at line 164: either a decoded JSON
value, or the body is not valid JSON, in which case the requests library
raises a JSONDecodeError carrying the given rendered text (a subclass of
RequestException, hence caught at line 174). -/
inductive BodyDecode where
  | ok (j : Json) : BodyDecode
  | invalid (cause : String) : BodyDecode

/-- Observable behaviour of the HTTP layer for the one POST the code issues:
either requests.post itself raises a RequestException whose rendered text is
the given cause (DNS, connection or TLS failure), or a response arrives with
a status code, the rendered text of the HTTPError that raise_for_status
would raise for that response, and a decoded body. -/
inductive Transport where
  | exn (cause : String) : Transport
  | response (status : Nat) (statusText : String) (body : BodyDecode) : Transport

/-- Python subscript with a string key, as in result["choices"]: succeeds on
a dictionary that has the key, raises KeyError when the key is absent, and
raises TypeError when the value is not a dictionary. Dictionaries decoded
from JSON have unique keys, so first-match lookup is exact. -/
def getKey : Json → String → Except PyExn Json
  | .obj fields, k =>
    match fields.lookup k with
    | some v => .ok v
    | none => .error (.keyError k)
  | _, _ => .error .typeError

/-- Python subscript with an integer index, as in choices[0]: indexes a list
or a string (yielding a one-character string), raises IndexError when out of
range, raises KeyError on a dictionary and TypeError otherwise. -/
def getIdx : Json → Nat → Except PyExn Json
  | .arr xs, i =>
    match xs.get? i with
    | some v => .ok v
    | none => .error .indexError
  | .str s, i =>
    match s.data.get? i with
    | some c => .ok (.str (String.mk [c]))
    | none => .error .indexError
  | .obj _, i => .error (.keyErrorIdx i)
  | _, _ => .error .typeError

/-- The subscript chain at source line 168:
result["choices"][0]["message"]["content"]. -/
def extractPath (result : Json) : Except PyExn Json := do
  let choices ← getKey result "choices"
  let first ← getIdx choices 0
  let message ← getKey first "message"
  getKey message "content"

/-- The error string built at source line 177 from the rendered text of the
caught exception. -/
def errorMessage (cause : String) : String :=
  "❌ Error: " ++ cause ++ "\n\nPlease check your API key and try again."

/-- Everything observable about one call of get_mistral_response: the
contents of the messages list after the call (the Python function receives
the session list itself and could mutate it), the POST requests issued, and
the returned value or escaping exception. -/
structure CallResult where
  messagesAfter : List Turn
  posts : List Request
  outcome : PyOutcome

/-- The function get_mistral_response, source lines 122 to 177. It builds
the fixed URL, the Content-Type and Authorization headers, and the payload
with the fixed model, the given messages, temperature 0.7 and max_tokens
1000; it issues exactly one POST; raise_for_status (line 160) raises an
HTTPError exactly for status codes from 400 to 599, which the except clause
catches; an undecodable body likewise becomes a caught JSONDecodeError; the
subscript chain at line 168 either yields the extracted value, which is
returned, or raises an exception that the except clause, restricted to
RequestException, lets escape. The body never mutates the messages list. -/
def get_mistral_response (messages : List Turn) (api_key : String)
    (post : Request → Transport) : CallResult :=
  let url := "https://api.mistral.ai/v1/chat/completions"
  let headers := [("Content-Type", "application/json"),
                  ("Authorization", "Bearer " ++ api_key)]
  let payload : Payload := ⟨"mistral-small-latest", messages, 0.7, 1000⟩
  let req : Request := ⟨url, headers, payload⟩
  let outcome : PyOutcome :=
    match post req with
    | .exn cause => .returns (.str (errorMessage cause))
    | .response status statusText body =>
      if 400 ≤ status ∧ status < 600 then .returns (.str (errorMessage statusText))
      else
        match body with
        | .invalid cause => .returns (.str (errorMessage cause))
        | .ok result =>
          match extractPath result with
          | .ok v => .returns v
          | .error e => .raises e
  ⟨messages, [req], outcome⟩

/-- One user-visible step of the application: either the clear button in the
sidebar (source lines 81 to 89), or a chat-input submission carrying the
typed text, the credential currently in the sidebar field, and the HTTP
oracle in effect for the resulting call. An empty prompt stands for the
falsy value of st.chat_input, under which the handler body is skipped. -/
inductive Event where
  | clear : Event
  | submit (prompt : String) (api_key : String) (post : Request → Transport) : Event

/-- One script run acting on the stored messages list, returning the new
list and the POST requests issued during the run. The clear button replaces
the list by the empty list and reruns (lines 85 to 88). A submission with a
falsy prompt skips the whole handler (line 184). With a prompt but an empty
credential, the handler shows an error and calls st.stop before any append
(lines 193 to 200). Otherwise the typed text is appended as a user turn
(line 207), get_mistral_response is called on the updated list (line 231),
and if it returns, the returned value is appended as an assistant turn
(line 243); if an exception escapes it, the script run aborts after the
user-turn append, leaving the list as it stood. -/
def stepT (msgs : List Turn) : Event → List Turn × List Request
  | .clear => ([], [])
  | .submit prompt api_key post =>
    if prompt = "" then (msgs, [])
    else if api_key = "" then (msgs, [])
    else
      let r := get_mistral_response (append msgs ⟨"user", Json.str prompt⟩) api_key post
      match r.outcome with
      | .returns v => (append r.messagesAfter ⟨"assistant", v⟩, r.posts)
      | .raises _ => (r.messagesAfter, r.posts)

/-- The transcript after one step. -/
def step (msgs : List Turn) (e : Event) : List Turn := (stepT msgs e).1

/-- Transcript states reachable from the empty initial transcript (line 99)
through clear and submission steps, over every possible HTTP behaviour. -/
inductive Reachable : List Turn → Prop where
  | init : Reachable []
  | next (s : List Turn) (e : Event) (hs : Reachable s) : Reachable (step s e)

/-- Whether the given step aborts with an uncaught exception escaping
get_mistral_response, so that the assistant-turn append at line 243 is never
reached. -/
def crashes (s : List Turn) : Event → Bool
  | .clear => false
  | .submit prompt api_key post =>
    if prompt = "" then false
    else if api_key = "" then false
    else
      match (get_mistral_response (append s ⟨"user", Json.str prompt⟩) api_key post).outcome with
      | .returns _ => false
      | .raises _ => true

/-- Transcript states reachable from the empty initial transcript through
steps none of which aborts with an uncaught exception. -/
inductive ReachableOk : List Turn → Prop where
  | init : ReachableOk []
  | next (s : List Turn) (e : Event) (hs : ReachableOk s)
      (hc : crashes s e = false) : ReachableOk (step s e)

/-- The transcript is a sequence of user-assistant pairs. -/
def evenAlt : List Turn → Bool
  | [] => true
  | u :: a :: ts => u.role == "user" && a.role == "assistant" && evenAlt ts
  | _ :: [] => false

/-- Roles strictly alternate along the list, the flag telling whether the
next expected role is user. -/
def altFrom : Bool → List Turn → Bool
  | _, [] => true
  | true, t :: ts => (t.role == "user") && altFrom false ts
  | false, t :: ts => (t.role == "assistant") && altFrom true ts

/-- Roles strictly alternate beginning with user. -/
def alternatesFromUser (s : List Turn) : Bool := altFrom true s

/-- The needle string occurs contiguously inside the hay string. -/
def containsStr (needle hay : String) : Prop :=
  ∃ p q, hay.data = p ++ needle.data ++ q

/-- Stated from the specification wording, for comparison with the string
the code builds: the error string is exactly of the form
Error: cause. Please check your API key and try again. -/
def specErrForm (s : String) : Prop :=
  ∃ cause, s = "Error: " ++ cause ++ ". Please check your API key and try again."

/-- Helper: one call returns the messages list as it received it, since the
function body performs no list mutation. -/
theorem messagesAfter_eq (m : List Turn) (k : String) (p : Request → Transport) :
    (get_mistral_response m k p).messagesAfter = m := rfl

/-- Helper: the list of requests one call issues. -/
theorem posts_eq (m : List Turn) (k : String) (p : Request → Transport) :
    (get_mistral_response m k p).posts
      = [⟨"https://api.mistral.ai/v1/chat/completions",
          [("Content-Type", "application/json"), ("Authorization", "Bearer " ++ k)],
          ⟨"mistral-small-latest", m, 0.7, 1000⟩⟩] := rfl

/-- Helper: the error string contains the substring Error: . -/
theorem errorMessage_contains_error (cause : String) :
    containsStr "Error:" (errorMessage cause) := by
  refine ⟨"❌ ".data,
    (" " ++ cause ++ "\n\nPlease check your API key and try again.").data, ?_⟩
  simp [errorMessage, String.data_append, List.append_assoc, List.cons_append]

/-- Helper: the error string tells the user to check the API key. -/
theorem errorMessage_contains_check (cause : String) :
    containsStr "check your API key" (errorMessage cause) := by
  refine ⟨("❌ Error: " ++ cause ++ "\n\nPlease ").data, " and try again.".data, ?_⟩
  simp [errorMessage, String.data_append, List.append_assoc, List.cons_append]

/-- Helper: appending one user turn and one assistant turn preserves the
pairwise user-assistant structure. -/
theorem evenAlt_append_pair (c v : Json) :
    ∀ s, evenAlt s = true →
      evenAlt (s ++ [⟨"user", c⟩, ⟨"assistant", v⟩]) = true := by
  intro s
  induction s using evenAlt.induct with
  | case1 => intro _; simp [evenAlt]
  | case2 u a ts ih =>
    intro h
    simp only [evenAlt, Bool.and_eq_true, beq_iff_eq] at h
    simp [evenAlt, h.1.1, h.1.2, ih h.2]
  | case3 t => intro h; simp [evenAlt] at h

/-- Helper: a list of user-assistant pairs strictly alternates beginning
with user. -/
theorem altFrom_of_evenAlt :
    ∀ s, evenAlt s = true → altFrom true s = true := by
  intro s
  induction s using evenAlt.induct with
  | case1 => intro _; rfl
  | case2 u a ts ih =>
    intro h
    simp only [evenAlt, Bool.and_eq_true, beq_iff_eq] at h
    simp [altFrom, h.1.1, h.1.2, ih h.2]
  | case3 t => intro h; simp [evenAlt] at h

/-- Helper: every crash-free reachable transcript is a sequence of
user-assistant pairs. -/
theorem evenAlt_of_reachableOk : ∀ s, ReachableOk s → evenAlt s = true := by
  intro s h
  induction h with
  | init => rfl
  | next s e hs hc ih =>
    cases e with
    | clear => rfl
    | submit prompt api_key post =>
      by_cases hp : prompt = ""
      · simpa [step, stepT, hp] using ih
      · by_cases hk : api_key = ""
        · simpa [step, stepT, hp, hk] using ih
        · cases hout : (get_mistral_response (s ++ [⟨"user", Json.str prompt⟩])
              api_key post).outcome with
          | returns v =>
            have hstep : step s (Event.submit prompt api_key post)
                = (s ++ [⟨"user", Json.str prompt⟩]) ++ [⟨"assistant", v⟩] := by
              simp [step, stepT, hp, hk, append, messagesAfter_eq, hout]
            rw [hstep]
            have h2 := evenAlt_append_pair (Json.str prompt) v s ih
            simpa [List.append_assoc] using h2
          | raises ex =>
            exfalso
            have hcr : crashes s (Event.submit prompt api_key post) = true := by
              simp [crashes, hp, hk, append, hout]
            rw [hc] at hcr
            exact Bool.false_ne_true hcr

/-- Claim C1: the claim says a success-status response whose JSON body lacks
the path choices, first element, message, content makes get_mistral_response
return an error string like other failures. The code instead lets the
exception raised by the subscript chain escape, since the except clause only
catches RequestException: on the body with no choices key a KeyError
escapes, and on an empty choices list an IndexError escapes. This theorem
evaluates the code at those failing inputs. -/
theorem c1_missing_path_raises :
    (get_mistral_response [⟨"user", Json.str "Hello"⟩] "k"
        (fun _ => Transport.response 200 "OK" (BodyDecode.ok (Json.obj [])))).outcome
      = PyOutcome.raises (PyExn.keyError "choices") ∧
    (get_mistral_response [⟨"user", Json.str "Hello"⟩] "k"
        (fun _ => Transport.response 200 "OK"
          (BodyDecode.ok (Json.obj [("choices", Json.arr [])])))).outcome
      = PyOutcome.raises PyExn.indexError :=
  ⟨rfl, rfl⟩

/-- Claim C3: a non-empty submission made while the credential is the empty
string never invokes get_mistral_response (no POST is issued) and leaves the
transcript unchanged: the typed text is not appended. -/
theorem c3_empty_credential_no_call (s : List Turn) (prompt : String)
    (post : Request → Transport) (hp : prompt ≠ "") :
    stepT s (Event.submit prompt "" post) = (s, []) := by
  simp [stepT, hp]

/-- Witness for claim C3 at the prompt hi. -/
theorem c3_empty_credential_no_call_witness :
    ("hi" : String) ≠ "" ∧
    stepT [] (Event.submit "hi" "" (fun _ => Transport.exn "x")) = ([], []) :=
  ⟨by decide, c3_empty_credential_no_call [] "hi" (fun _ => Transport.exn "x") (by decide)⟩

/-- Claim C4: one invocation of get_mistral_response issues exactly one POST
to https://api.mistral.ai/v1/chat/completions with the Content-Type and
Authorization headers, the latter being Bearer followed by the credential,
and a JSON body with model mistral-small-latest, the transcript as the
ordered message list, temperature 0.7 and max_tokens 1000. -/
theorem c4_exactly_one_post (messages : List Turn) (api_key : String)
    (post : Request → Transport) :
    (get_mistral_response messages api_key post).posts
      = [⟨"https://api.mistral.ai/v1/chat/completions",
          [("Content-Type", "application/json"),
           ("Authorization", "Bearer " ++ api_key)],
          ⟨"mistral-small-latest", messages, 0.7, 1000⟩⟩] := rfl

/-- Claim C5: on a success-status response whose JSON body has the shape of
a choices list whose first element carries a message object with a string
content, get_mistral_response returns that content string. -/
theorem c5_success_returns_content (messages : List Turn) (api_key : String)
    (status : Nat) (statusText : String) (c : String) (hs : status < 400) :
    (get_mistral_response messages api_key (fun _ =>
        Transport.response status statusText (BodyDecode.ok
          (Json.obj [("choices", Json.arr
            [Json.obj [("message", Json.obj [("content", Json.str c)])]])])))).outcome
      = PyOutcome.returns (Json.str c) := by
  have hns : ¬(400 ≤ status ∧ status < 600) := by omega
  simp only [get_mistral_response, if_neg hns]
  rfl

/-- Witness for claim C5: a one-turn transcript with content Hello and a
mocked endpoint answering status 200 with content Hi there yields exactly
Hi there. -/
theorem c5_success_returns_content_witness :
    200 < 400 ∧
    (get_mistral_response [⟨"user", Json.str "Hello"⟩] "k" (fun _ =>
        Transport.response 200 "OK" (BodyDecode.ok
          (Json.obj [("choices", Json.arr
            [Json.obj [("message", Json.obj [("content", Json.str "Hi there")])]])])))).outcome
      = PyOutcome.returns (Json.str "Hi there") :=
  ⟨by decide,
    c5_success_returns_content [⟨"user", Json.str "Hello"⟩] "k" 200 "OK" "Hi there" (by decide)⟩

/-- Claim C6: starting from any transcript state, a sequence of append calls
leaves exactly the prior turns followed by the appended turns, unmodified
and in call order: no deduplication, no reordering, no editing or removal of
existing turns. -/
theorem c6_append_order (s ts : List Turn) :
    all (List.foldl append s ts) = s ++ ts := by
  induction ts generalizing s with
  | nil => simp [all]
  | cons t ts ih =>
    rw [List.foldl_cons, ih]
    simp [append]

/-- Claim C7: the clear action followed by reading the store always yields
the empty sequence, whatever the prior size, and a clear step has no other
effect: in particular it issues no network request. -/
theorem c7_clear (s : List Turn) :
    all (step s Event.clear) = [] ∧ stepT s Event.clear = ([], []) :=
  ⟨rfl, rfl⟩

/-- Claim C9: get_mistral_response leaves the messages list it was given
unchanged: it reads the list to build the request payload but never appends
to, removes from, or edits it. -/
theorem c9_messages_unchanged (messages : List Turn) (api_key : String)
    (post : Request → Transport) :
    (get_mistral_response messages api_key post).messagesAfter = messages := rfl

/-- Claim C10: a submission event whose typed text is the empty string is a
no-op: no turn is appended and no POST is issued, whatever the credential. -/
theorem c10_empty_prompt_noop (s : List Turn) (api_key : String)
    (post : Request → Transport) :
    stepT s (Event.submit "" api_key post) = (s, []) := by
  simp [stepT]

/-- Counterexample for claim C2: the claim says the error string is exactly
of the form Error: cause. Please check your API key and try again. At a
transport failure with rendered text boom the code returns a string that
starts with a cross-mark emoji and separates the two sentences with two
newlines, so it is not of that form for any cause. -/
theorem c2_counterexample :
    (get_mistral_response [⟨"user", Json.str "Hello"⟩] "k"
        (fun _ => Transport.exn "boom")).outcome
      = PyOutcome.returns
          (Json.str "❌ Error: boom\n\nPlease check your API key and try again.") ∧
    ¬ specErrForm "❌ Error: boom\n\nPlease check your API key and try again." := by
  refine ⟨rfl, ?_⟩
  rintro ⟨cause, h⟩
  have h2 := congrArg String.data h
  simp only [String.data_append] at h2
  have h3 := congrArg List.head? h2
  simp [List.head?_append] at h3

/-- Claim C2 as amended: for a transport failure, and for a response whose
status is in the error range 400 to 599, get_mistral_response returns the
string that prefixes the rendered cause with a cross-mark emoji and the word
Error and a colon, and continues after two newlines with the sentence
Please check your API key and try again. In particular the returned string
contains Error: and tells the user to check the API key. -/
theorem c2_error_string_shape (messages : List Turn) (api_key : String)
    (cause statusText : String) (status : Nat) (body : BodyDecode)
    (h4 : 400 ≤ status) (h6 : status < 600) :
    ((get_mistral_response messages api_key (fun _ => Transport.exn cause)).outcome
        = PyOutcome.returns (Json.str (errorMessage cause)) ∧
      (get_mistral_response messages api_key
          (fun _ => Transport.response status statusText body)).outcome
        = PyOutcome.returns (Json.str (errorMessage statusText))) ∧
    (errorMessage cause
        = "❌ Error: " ++ cause ++ "\n\nPlease check your API key and try again." ∧
      containsStr "Error:" (errorMessage cause) ∧
      containsStr "check your API key" (errorMessage cause) ∧
      containsStr "Error:" (errorMessage statusText) ∧
      containsStr "check your API key" (errorMessage statusText)) := by
  refine ⟨⟨rfl, ?_⟩, rfl, errorMessage_contains_error cause,
    errorMessage_contains_check cause, errorMessage_contains_error statusText,
    errorMessage_contains_check statusText⟩
  have hy : 400 ≤ status ∧ status < 600 := ⟨h4, h6⟩
  simp only [get_mistral_response, if_pos hy]

/-- Witness for claim C2 at status 401. -/
theorem c2_error_string_shape_witness :
    400 ≤ 401 ∧ 401 < 600 ∧
    ((get_mistral_response [⟨"user", Json.str "Hello"⟩] "k"
          (fun _ => Transport.exn "boom")).outcome
        = PyOutcome.returns (Json.str (errorMessage "boom")) ∧
      (get_mistral_response [⟨"user", Json.str "Hello"⟩] "k"
          (fun _ => Transport.response 401 "401 Client Error: Unauthorized"
            (BodyDecode.ok Json.null))).outcome
        = PyOutcome.returns
            (Json.str (errorMessage "401 Client Error: Unauthorized"))) ∧
    containsStr "Error:" (errorMessage "boom") ∧
    containsStr "check your API key" (errorMessage "boom") := by
  have h := c2_error_string_shape [⟨"user", Json.str "Hello"⟩] "k" "boom"
    "401 Client Error: Unauthorized" 401 (BodyDecode.ok Json.null)
    (by decide) (by decide)
  exact ⟨by decide, by decide, h.1, h.2.2.1, h.2.2.2.1⟩

/-- The HTTP behaviour used by the witness for claim C8: status 200 with a
well-formed body whose content is the string ok. -/
def okPost : Request → Transport := fun _ =>
  Transport.response 200 "OK" (BodyDecode.ok
    (Json.obj [("choices", Json.arr
      [Json.obj [("message", Json.obj [("content", Json.str "ok")])]])]))

/-- The HTTP behaviour used by the counterexample for claim C8: status 200
with a JSON body that lacks the choices key, on which the subscript chain
raises an uncaught KeyError, aborting the script run between the user-turn
append and the assistant-turn append. -/
def crashPost : Request → Transport := fun _ =>
  Transport.response 200 "OK" (BodyDecode.ok (Json.obj []))

/-- Counterexample for claim C8: a non-empty transcript that does not
alternate is reachable through the submission steps of the program. Two
submissions that each receive a success-status response lacking the choices
path abort after their user-turn append, leaving two adjacent user turns. -/
theorem c8_counterexample :
    Reachable [⟨"user", Json.str "a"⟩, ⟨"user", Json.str "b"⟩] ∧
    ([⟨"user", Json.str "a"⟩, ⟨"user", Json.str "b"⟩] : List Turn) ≠ [] ∧
    alternatesFromUser [⟨"user", Json.str "a"⟩, ⟨"user", Json.str "b"⟩] = false := by
  refine ⟨?_, by simp, rfl⟩
  have h1 := Reachable.next [] (Event.submit "a" "k" crashPost) Reachable.init
  have e1 : step [] (Event.submit "a" "k" crashPost) = [⟨"user", Json.str "a"⟩] := rfl
  rw [e1] at h1
  have h2 := Reachable.next [⟨"user", Json.str "a"⟩]
    (Event.submit "b" "k" crashPost) h1
  have e2 : step [⟨"user", Json.str "a"⟩] (Event.submit "b" "k" crashPost)
      = [⟨"user", Json.str "a"⟩, ⟨"user", Json.str "b"⟩] := rfl
  rw [e2] at h2
  exact h2

/-- Claim C8 as amended: in every transcript state reachable through
submission and clear steps none of which is aborted by an uncaught
exception escaping get_mistral_response, a non-empty transcript strictly
alternates between user and assistant roles beginning with user; and a
submission whose get_mistral_response call returns appends exactly one user
turn followed by one assistant turn, both contents unmodified. -/
theorem c8_alternation_and_roundtrip :
    (∀ s, ReachableOk s → s ≠ [] → alternatesFromUser s = true) ∧
    (∀ (s : List Turn) (prompt api_key : String) (post : Request → Transport)
        (v : Json), prompt ≠ "" → api_key ≠ "" →
      (get_mistral_response (s ++ [⟨"user", Json.str prompt⟩]) api_key post).outcome
        = PyOutcome.returns v →
      step s (Event.submit prompt api_key post)
        = s ++ [⟨"user", Json.str prompt⟩, ⟨"assistant", v⟩]) := by
  constructor
  · intro s h _
    exact altFrom_of_evenAlt s (evenAlt_of_reachableOk s h)
  · intro s prompt api_key post v hp hk hout
    simp [step, stepT, hp, hk, append, messagesAfter_eq, hout]

/-- Witness for claim C8: one successful submission from the empty
transcript yields the user turn followed by the assistant turn, and the
resulting state alternates. -/
theorem c8_alternation_and_roundtrip_witness :
    alternatesFromUser (step [] (Event.submit "a" "k" okPost)) = true ∧
    step [] (Event.submit "a" "k" okPost)
      = [] ++ [⟨"user", Json.str "a"⟩, ⟨"assistant", Json.str "ok"⟩] := by
  constructor
  · exact c8_alternation_and_roundtrip.1 (step [] (Event.submit "a" "k" okPost))
      (ReachableOk.next [] (Event.submit "a" "k" okPost) ReachableOk.init rfl)
      (by intro h; exact absurd (congrArg List.length h) (by decide))
  · exact c8_alternation_and_roundtrip.2 [] "a" "k" okPost (Json.str "ok")
      (by decide) (by decide) rfl

end MistralChatbot
